import Mathlib

/-!
# Language-mix detection and translation-direction resolver

Shallow embedding of the `LangPercent` class (static script-range table,
`inRange`, `calcPercent`, `getLangs`) of the bettergpt editor extension.

A text is modelled as its sequence of Unicode code points (`List Nat`):
the JavaScript source decomposes the string with `Array.from`, which
iterates code points, so each element of the list corresponds to one
element of that decomposition.  For each code point we also record the
facts of its UTF-16 encoding that the source observes:
`charCodeAt(0)` on a one-code-point string returns the leading UTF-16
code unit (the high surrogate for characters outside the basic
multilingual plane), and `text.length` is the total number of UTF-16
code units.  JavaScript numbers are modelled by `ℚ`: every percentage
arising here is a ratio of two small naturals times 100, and the
comparisons with 50 and the exact expected values (0, 37.5, 100) are
unaffected by double rounding at these magnitudes.
-/

namespace LangPercent

/-- A text, as the sequence of Unicode code points produced by
`Array.from` on the JavaScript string. -/
abbrev Text := List Nat

/-- The static script-range table `LangPercent.ranges`: a lookup by exact
string key; an absent key yields the empty interval list
(`this.ranges[lang] || []` in the source). -/
def ranges (lang : String) : List (Nat × Nat) :=
  if lang = "繁體中文" then [(0x3400, 0x4dbf), (0xf900, 0xfaff), (0x4e00, 0x9fff)]
  else if lang = "简体中文" then [(0x4e00, 0x9fff)]
  else if lang = "日本語" then [(0x3040, 0x309f), (0x30a0, 0x30ff), (0x4e00, 0x9fff)]
  else if lang = "English" then [(0x0041, 0x005a), (0x0061, 0x007a)]
  else []

/-- The keys of the script-range table. -/
def tableKeys : List String := ["繁體中文", "简体中文", "日本語", "English"]

/-- Embedding of `LangPercent.inRange`: does the code unit lie in some
interval of the list? -/
def inRange (ucChar : Nat) (rs : List (Nat × Nat)) : Bool :=
  rs.any (fun p => decide (p.1 ≤ ucChar) && decide (ucChar ≤ p.2))

/-- The leading UTF-16 code unit of a code point: the code point itself
inside the basic multilingual plane, the high surrogate otherwise.
This is what `char.charCodeAt(0)` returns on a one-code-point string. -/
def leadUnit (c : Nat) : Nat :=
  if c < 0x10000 then c else 0xD800 + (c - 0x10000) / 0x400

/-- The number of UTF-16 code units a code point occupies. -/
def utf16Len (c : Nat) : Nat :=
  if c < 0x10000 then 1 else 2

/-- The JavaScript `text.length`: the number of UTF-16 code units. -/
def textUtf16Length (text : Text) : Nat :=
  (text.map utf16Len).sum

/-- Embedding of `LangPercent.calcPercent`: the number of
`Array.from(text)` elements whose leading code unit lies in a table
interval, over `text.length` (UTF-16 code units), times 100; 0 for the
empty string. -/
def calcPercent (text : Text) (lang : String) : ℚ :=
  let langChars := (text.filter (fun c => inRange (leadUnit c) (ranges lang))).length
  if textUtf16Length text > 0 then ((langChars : ℚ) / (textUtf16Length text : ℚ)) * 100
  else 0

/-- The return value of `getLangs`: the record with the resolved source
(field `defLang`) and destination (field `tgtLang`) languages. -/
structure LangPair where
  defLang : String
  tgtLang : String
deriving DecidableEq, Repr

/-- Embedding of `LangPercent.getLangs`, the translation-direction
resolver (the operation the specification calls `resolve`). -/
def getLangs (text : Text) (defLang tgtLang : String) : LangPair :=
  let defLangPercent := calcPercent text defLang
  let tgtLangPercent := calcPercent text tgtLang
  if defLangPercent > 50 then ⟨defLang, tgtLang⟩
  else if tgtLangPercent > 50 then ⟨tgtLang, defLang⟩
  else ⟨defLang, tgtLang⟩

/-- The code points of a Lean string literal, for concrete test inputs. -/
def strCPs (s : String) : Text := s.data.map Char.toNat

/-- The percentage as the specification describes it: the denominator is
the number of code points (not UTF-16 code units) and interval
membership is tested on the code point itself.  Written from the
specification's words, to be compared with `calcPercent`. -/
def claimPercent (text : Text) (lang : String) : ℚ :=
  let matchCount := (text.filter (fun c => inRange c (ranges lang))).length
  if text.length > 0 then ((matchCount : ℚ) / (text.length : ℚ)) * 100
  else 0

/-- The property names of JavaScript Object.prototype.  A plain object
literal inherits these, so the property access `this.ranges[lang]`
yields a truthy function or object — never undefined — when `lang` is
one of them. -/
def protoKeys : List String :=
  ["constructor", "hasOwnProperty", "isPrototypeOf", "propertyIsEnumerable",
   "toLocaleString", "toString", "valueOf", "__defineGetter__",
   "__defineSetter__", "__lookupGetter__", "__lookupSetter__", "__proto__"]

/-- A JavaScript value that the lookup `this.ranges[lang]` can produce:
an interval array, or a truthy non-array value inherited from
Object.prototype (a method, or the prototype object itself for the
`__proto__` accessor). -/
inductive JSValue where
  | arr (rs : List (Nat × Nat))
  | protoFn
deriving DecidableEq, Repr

/-- The raw property access `this.ranges[lang]` with JavaScript
prototype-chain semantics: an own key of the object literal yields its
interval array, a name of an Object.prototype member yields the truthy
inherited value, and any other key yields undefined (`none`). -/
def rangesLookupJS (lang : String) : Option JSValue :=
  if lang = "繁體中文" then some (.arr [(0x3400, 0x4dbf), (0xf900, 0xfaff), (0x4e00, 0x9fff)])
  else if lang = "简体中文" then some (.arr [(0x4e00, 0x9fff)])
  else if lang = "日本語" then some (.arr [(0x3040, 0x309f), (0x30a0, 0x30ff), (0x4e00, 0x9fff)])
  else if lang = "English" then some (.arr [(0x0041, 0x005a), (0x0061, 0x007a)])
  else if lang ∈ protoKeys then some .protoFn
  else none

/-- The guarded lookup `this.ranges[lang] || []` of the source:
undefined is the only falsy lookup result, so it alone is replaced by
the empty array, while a truthy inherited non-array is kept. -/
def rangesOrEmptyJS (lang : String) : JSValue :=
  (rangesLookupJS lang).getD (.arr [])

/-- The filter of `calcPercent` under JavaScript error semantics: each
callback invocation passes the looked-up value to `inRange`, whose
`ranges.some(...)` call throws a TypeError when that value is not an
array — but only when the callback actually runs, that is, only on
non-empty text. -/
def filterLangCharsJS (text : Text) (v : JSValue) : Except String Nat :=
  match v with
  | .arr rs => .ok ((text.filter (fun c => inRange (leadUnit c) rs)).length)
  | .protoFn =>
      match text with
      | [] => .ok 0
      | _ :: _ => .error "TypeError"

/-- `LangPercent.calcPercent` under JavaScript error semantics,
including the prototype-chain lookup. -/
def calcPercentJS (text : Text) (lang : String) : Except String ℚ :=
  match filterLangCharsJS text (rangesOrEmptyJS lang) with
  | .error e => .error e
  | .ok langChars =>
      .ok (if textUtf16Length text > 0
           then ((langChars : ℚ) / (textUtf16Length text : ℚ)) * 100
           else 0)

/-- `LangPercent.getLangs` under JavaScript error semantics: an
exception from either percentage computation propagates to the
caller. -/
def getLangsJS (text : Text) (defLang tgtLang : String) : Except String LangPair :=
  match calcPercentJS text defLang with
  | .error e => .error e
  | .ok defLangPercent =>
      match calcPercentJS text tgtLang with
      | .error e => .error e
      | .ok tgtLangPercent =>
          .ok (if defLangPercent > 50 then ⟨defLang, tgtLang⟩
               else if tgtLangPercent > 50 then ⟨tgtLang, defLang⟩
               else ⟨defLang, tgtLang⟩)

/-- Evaluation helper: `calcPercent` from a computed numerator and
denominator. -/
theorem calcPercent_eval (text : Text) (lang : String) (m n : Nat)
    (hm : (text.filter (fun c => inRange (leadUnit c) (ranges lang))).length = m)
    (hn : textUtf16Length text = n) :
    calcPercent text lang = if n > 0 then ((m : ℚ) / (n : ℚ)) * 100 else 0 := by
  simp only [calcPercent, hm, hn]

/-- Evaluation helper: `claimPercent` from a computed numerator and
denominator. -/
theorem claimPercent_eval (text : Text) (lang : String) (m n : Nat)
    (hm : (text.filter (fun c => inRange c (ranges lang))).length = m)
    (hn : text.length = n) :
    claimPercent text lang = if n > 0 then ((m : ℚ) / (n : ℚ)) * 100 else 0 := by
  simp only [claimPercent, hm, hn]

/-- Unfolding helper: the decision structure of `getLangs`. -/
theorem getLangs_eq (text : Text) (defLang tgtLang : String) :
    getLangs text defLang tgtLang =
      if calcPercent text defLang > 50 then ⟨defLang, tgtLang⟩
      else if calcPercent text tgtLang > 50 then ⟨tgtLang, defLang⟩
      else ⟨defLang, tgtLang⟩ := rfl

/-- For a key colliding with no Object.prototype member the guarded
lookup yields exactly the interval list of the simple table model. -/
theorem rangesOrEmptyJS_eq (lang : String) (h : lang ∉ protoKeys) :
    rangesOrEmptyJS lang = .arr (ranges lang) := by
  unfold rangesOrEmptyJS rangesLookupJS ranges
  split_ifs <;> simp_all

/-- For a key colliding with no Object.prototype member the fallible
percentage agrees with the pure one. -/
theorem calcPercentJS_eq_ok (text : Text) (lang : String) (h : lang ∉ protoKeys) :
    calcPercentJS text lang = .ok (calcPercent text lang) := by
  unfold calcPercentJS filterLangCharsJS
  rw [rangesOrEmptyJS_eq lang h]
  simp [calcPercent]

/-- On a text whose code points all lie in the basic multilingual plane
the UTF-16 length is the code-point count. -/
theorem textUtf16Length_of_bmp :
    ∀ text : Text, (∀ c ∈ text, c < 0x10000) → textUtf16Length text = text.length := by
  intro text
  induction text with
  | nil => intro _; rfl
  | cons a l ih =>
    intro h
    have ha : a < 0x10000 := h a (by simp)
    have hl : ∀ c ∈ l, c < 0x10000 := fun c hc => h c (List.mem_cons_of_mem a hc)
    have hrec := ih hl
    simp only [textUtf16Length, List.map_cons, List.sum_cons, utf16Len, if_pos ha,
      List.length_cons] at hrec ⊢
    omega

/-- C1: for every text and every pair of language identifiers, the
resolver evaluates its decision in this exact priority order: default
language above 50 percent wins, otherwise target language above 50
percent swaps the direction, otherwise the configured default
orientation is returned. -/
theorem getLangs_decision_order (text : Text) (defLang tgtLang : String) :
    getLangs text defLang tgtLang =
      if calcPercent text defLang > 50 then ⟨defLang, tgtLang⟩
      else if calcPercent text tgtLang > 50 then ⟨tgtLang, defLang⟩
      else ⟨defLang, tgtLang⟩ := rfl

/-- C2 (counterexample): on the text consisting of U+1D400 (a character
outside the basic multilingual plane) followed by the letter a, the
implemented percentage for English is 100/3 — one matching element out
of three UTF-16 code units — while the specified formula (one matching
code point out of two code points) gives 50. -/
theorem calcPercent_bmp_skew_counterexample :
    calcPercent [0x1D400, 0x61] "English" ≠ claimPercent [0x1D400, 0x61] "English" ∧
    calcPercent [0x1D400, 0x61] "English" = 100 / 3 ∧
    claimPercent [0x1D400, 0x61] "English" = 50 := by
  have h1 : calcPercent [0x1D400, 0x61] "English" = 100 / 3 := by
    rw [calcPercent_eval _ _ 1 3 (by decide) (by decide)]; norm_num
  have h2 : claimPercent [0x1D400, 0x61] "English" = 50 := by
    rw [claimPercent_eval _ _ 1 2 (by decide) (by decide)]; norm_num
  refine ⟨?_, h1, h2⟩
  rw [h1, h2]; norm_num

/-- C2 (amended): the denominator of `calcPercent` is the UTF-16
code-unit count and the interval test is applied to the leading code
unit, so the specified code-point formula agrees with the implementation
exactly on texts whose code points all lie in the basic multilingual
plane; percentages ARE diluted for strings containing characters beyond
it. -/
theorem calcPercent_eq_claimPercent_of_bmp (text : Text) (lang : String)
    (h : ∀ c ∈ text, c < 0x10000) :
    calcPercent text lang = claimPercent text lang := by
  have hfilter : text.filter (fun c => inRange (leadUnit c) (ranges lang))
      = text.filter (fun c => inRange c (ranges lang)) := by
    apply List.filter_congr
    intro c hc
    simp [leadUnit, if_pos (h c hc)]
  have hlen : textUtf16Length text = text.length := textUtf16Length_of_bmp text h
  simp only [calcPercent, claimPercent, hfilter, hlen]

/-- Witness for C2 (amended) at the all-BMP text ab. -/
theorem calcPercent_eq_claimPercent_of_bmp_witness :
    (∀ c ∈ strCPs "ab", c < 0x10000) ∧
    calcPercent (strCPs "ab") "English" = claimPercent (strCPs "ab") "English" :=
  ⟨by decide, calcPercent_eq_claimPercent_of_bmp (strCPs "ab") "English" (by decide)⟩

/-- C3 (code bug): the identifier toString is not a table key, yet on
the non-empty text a the property lookup inherits the truthy
Object.prototype.toString method, the or-empty guard keeps it, and
`inRange` throws a TypeError when its `.some` call hits a non-array —
so the percentage is not 0 and the resolver raises, contradicting the
graceful degradation the guard itself was written for.  On empty text
the filter callback never runs, so even that identifier returns 0
without raising, and an unknown identifier colliding with no
Object.prototype member still degrades gracefully to a 0 percent
match. -/
theorem calcPercentJS_proto_key_throws :
    "toString" ∉ tableKeys ∧
    calcPercentJS [0x61] "toString" = .error "TypeError" ∧
    getLangsJS [0x61] "toString" "English" = .error "TypeError" ∧
    calcPercentJS [] "toString" = .ok 0 ∧
    calcPercentJS [0x61] "Deutsch" = .ok (calcPercent [0x61] "Deutsch") ∧
    calcPercent [0x61] "Deutsch" = 0 := by
  refine ⟨by decide, rfl, rfl, rfl, calcPercentJS_eq_ok [0x61] "Deutsch" (by decide), ?_⟩
  rw [calcPercent_eval _ _ 0 1 (by decide) (by decide)]; norm_num

/-- C4: on empty text both percentages are 0 and the resolver falls back
to the default orientation, and on the text abc123!! the English
percentage is exactly 37.5 and the target percentage 0, so neither
exceeds 50 and the resolver again falls back to the default
orientation. -/
theorem getLangs_fallback_examples :
    getLangs (strCPs "") "English" "繁體中文" = ⟨"English", "繁體中文"⟩ ∧
    calcPercent (strCPs "") "English" = 0 ∧
    calcPercent (strCPs "") "繁體中文" = 0 ∧
    getLangs (strCPs "abc123!!") "English" "繁體中文" = ⟨"English", "繁體中文"⟩ ∧
    calcPercent (strCPs "abc123!!") "English" = 75 / 2 ∧
    calcPercent (strCPs "abc123!!") "繁體中文" = 0 := by
  have e1 : calcPercent (strCPs "") "English" = 0 := by
    rw [calcPercent_eval _ _ 0 0 (by decide) (by decide)]; norm_num
  have e2 : calcPercent (strCPs "") "繁體中文" = 0 := by
    rw [calcPercent_eval _ _ 0 0 (by decide) (by decide)]; norm_num
  have e3 : calcPercent (strCPs "abc123!!") "English" = 75 / 2 := by
    rw [calcPercent_eval _ _ 3 8 (by decide) (by decide)]; norm_num
  have e4 : calcPercent (strCPs "abc123!!") "繁體中文" = 0 := by
    rw [calcPercent_eval _ _ 0 8 (by decide) (by decide)]; norm_num
  refine ⟨?_, e1, e2, ?_, e3, e4⟩
  · rw [getLangs_eq, e1, e2]; norm_num
  · rw [getLangs_eq, e3, e4]; norm_num

/-- C5: on the all-Han text 這是測試 the 繁體中文 percentage is 100 and
the English percentage 0, so the target-language branch triggers and the
direction is swapped. -/
theorem getLangs_swap_example :
    getLangs (strCPs "這是測試") "English" "繁體中文" = ⟨"繁體中文", "English"⟩ ∧
    calcPercent (strCPs "這是測試") "繁體中文" = 100 ∧
    calcPercent (strCPs "這是測試") "English" = 0 := by
  have e1 : calcPercent (strCPs "這是測試") "繁體中文" = 100 := by
    rw [calcPercent_eval _ _ 4 4 (by decide) (by decide)]; norm_num
  have e2 : calcPercent (strCPs "這是測試") "English" = 0 := by
    rw [calcPercent_eval _ _ 0 4 (by decide) (by decide)]; norm_num
  refine ⟨?_, e1, e2⟩
  rw [getLangs_eq, e1, e2]; norm_num

/-- C6: with identical default and target identifiers the resolver
returns the pair unchanged, whichever branch is taken. -/
theorem getLangs_same_lang (text : Text) (lang : String) :
    getLangs text lang lang = ⟨lang, lang⟩ := by
  simp only [getLangs]
  split <;> rfl

/-- C7: the resolver is a deterministic pure function of its inputs: two
invocations with identical inputs return identical outputs. -/
theorem getLangs_deterministic (t t' : Text) (d d' g g' : String)
    (ht : t = t') (hd : d = d') (hg : g = g') :
    getLangs t d g = getLangs t' d' g' := by
  subst ht hd hg
  rfl

/-- Witness for C7 at a concrete invocation. -/
theorem getLangs_deterministic_witness :
    getLangs (strCPs "abc") "English" "日本語" = getLangs (strCPs "abc") "English" "日本語" :=
  getLangs_deterministic _ _ _ _ _ _ rfl rfl rfl

/-- C8: whenever both languages score above 50 percent the default
language wins the tie because it is checked first, and such texts exist
because distinct CJK table entries share code-point intervals: 這是測試
scores 100 percent for both 繁體中文 and 简体中文. -/
theorem getLangs_tie_prefers_default :
    (∀ (text : Text) (defLang tgtLang : String),
        calcPercent text defLang > 50 → calcPercent text tgtLang > 50 →
        getLangs text defLang tgtLang = ⟨defLang, tgtLang⟩) ∧
    calcPercent (strCPs "這是測試") "繁體中文" > 50 ∧
    calcPercent (strCPs "這是測試") "简体中文" > 50 := by
  refine ⟨fun text d g hd _ => ?_, ?_, ?_⟩
  · rw [getLangs_eq, if_pos hd]
  · rw [calcPercent_eval _ _ 4 4 (by decide) (by decide)]; norm_num
  · rw [calcPercent_eval _ _ 4 4 (by decide) (by decide)]; norm_num

/-- Witness for C8: the shared-Han text resolved with 繁體中文 as default
and 简体中文 as target keeps the default orientation. -/
theorem getLangs_tie_prefers_default_witness :
    getLangs (strCPs "這是測試") "繁體中文" "简体中文" = ⟨"繁體中文", "简体中文"⟩ := by
  apply getLangs_tie_prefers_default.1
  · rw [calcPercent_eval _ _ 4 4 (by decide) (by decide)]; norm_num
  · rw [calcPercent_eval _ _ 4 4 (by decide) (by decide)]; norm_num

/-- C9: the output of the resolver is always a permutation of the input
pair: either the default orientation or the swapped one, and no other
string ever appears. -/
theorem getLangs_output_permutation (text : Text) (defLang tgtLang : String) :
    getLangs text defLang tgtLang = ⟨defLang, tgtLang⟩ ∨
    getLangs text defLang tgtLang = ⟨tgtLang, defLang⟩ := by
  simp only [getLangs]
  split
  · exact Or.inl rfl
  · split
    · exact Or.inr rfl
    · exact Or.inl rfl

/-- C10: for every code point outside the basic multilingual plane, the
membership test sees only the leading UTF-16 code unit, a high surrogate
in the range D800 to DBFF, which lies in no interval of the shipped
table for any language identifier; the character therefore never counts
as a match while still occupying two UTF-16 code units of the
denominator. -/
theorem leadUnit_surrogate_never_matches (c : Nat)
    (h1 : 0x10000 ≤ c) (h2 : c ≤ 0x10FFFF) :
    (0xD800 ≤ leadUnit c ∧ leadUnit c ≤ 0xDBFF) ∧
    (∀ lang : String, inRange (leadUnit c) (ranges lang) = false) ∧
    utf16Len c = 2 := by
  have hlt : ¬ c < 0x10000 := by omega
  have hub : (c - 0x10000) / 0x400 ≤ 0x3FF := by
    calc (c - 0x10000) / 0x400 ≤ 0xFFFFF / 0x400 :=
          Nat.div_le_div_right (by omega)
    _ = 0x3FF := by norm_num
  have hlead : leadUnit c = 0xD800 + (c - 0x10000) / 0x400 := by
    simp [leadUnit, hlt]
  have hb1 : 0xD800 ≤ leadUnit c := by rw [hlead]; omega
  have hb2 : leadUnit c ≤ 0xDBFF := by rw [hlead]; omega
  refine ⟨⟨hb1, hb2⟩, ?_, by simp [utf16Len, hlt]⟩
  intro lang
  unfold ranges
  split_ifs <;> simp [inRange] <;> omega

/-- Witness for C10 at U+1D400. -/
theorem leadUnit_surrogate_never_matches_witness :
    0x10000 ≤ 0x1D400 ∧ 0x1D400 ≤ 0x10FFFF ∧
    ((0xD800 ≤ leadUnit 0x1D400 ∧ leadUnit 0x1D400 ≤ 0xDBFF) ∧
     (∀ lang : String, inRange (leadUnit 0x1D400) (ranges lang) = false) ∧
     utf16Len 0x1D400 = 2) :=
  ⟨by norm_num, by norm_num,
    leadUnit_surrogate_never_matches 0x1D400 (by norm_num) (by norm_num)⟩

end LangPercent
